import Mathlib

/-!
Verification of the pymeasure instrument-driver corpus: a shallow embedding
of the transport layer, the completion-polling measure primitive, the
validator/value-map pipeline and the driver command tables, together with
theorems settling the specification claims.
-/

/-- One transport operation, as observed on the adapter: a command write with
no response expected, a plain blocking read, or an ask (atomic write-then-read
of a query). -/
inductive TOp where
  | write (cmd : String)
  | read
  | ask (cmd : String)
deriving DecidableEq, Repr

/-- Split a character list at every character satisfying the predicate
(structural analogue of String.splitOn for single-character separators). -/
def splitOnPred (p : Char → Bool) : List Char → List (List Char)
  | [] => [[]]
  | x :: xs =>
    let r := splitOnPred p xs
    if p x then [] :: r
    else
      match r with
      | [] => [[x]]
      | hd :: tl => (x :: hd) :: tl

/-- Strip leading and trailing whitespace characters. -/
def trimWs (cs : List Char) : List Char :=
  ((cs.dropWhile Char.isWhitespace).reverse.dropWhile Char.isWhitespace).reverse

/-- Parse a nonempty all-digit character list as a natural number. -/
def parseDigits (cs : List Char) : Option ℕ :=
  if cs ≠ [] ∧ cs.all Char.isDigit then
    some (cs.foldl (fun a c => a * 10 + (c.toNat - 48)) 0)
  else none

/-- Parse an unsigned decimal mantissa: digits, optionally with a decimal
point and fraction digits ("5", "5.", ".5", "5.000"). -/
def parseMantissa (cs : List Char) : Option ℚ :=
  match splitOnPred (fun c => c = '.') cs with
  | [ip] => (parseDigits ip).map (fun n => (n : ℚ))
  | [ip, fp] =>
    if ip = [] ∧ fp = [] then none
    else
      let ipv : Option ℕ := if ip = [] then some 0 else parseDigits ip
      let fpv : Option ℕ := if fp = [] then some 0 else parseDigits fp
      match ipv, fpv with
      | some i, some f => some ((i : ℚ) + (f : ℚ) / (10 : ℚ) ^ fp.length)
      | _, _ => none
  | _ => none

/-- Parse an optionally signed decimal mantissa. -/
def parseSigned (cs : List Char) : Option ℚ :=
  match cs with
  | '+' :: rest => parseMantissa rest
  | '-' :: rest => (parseMantissa rest).map (fun q => -q)
  | _ => parseMantissa cs

/-- Parse an optionally signed integer exponent. -/
def parseExp (cs : List Char) : Option ℤ :=
  match cs with
  | '+' :: rest => (parseDigits rest).map (fun n => (n : ℤ))
  | '-' :: rest => (parseDigits rest).map (fun n => -(n : ℤ))
  | _ => (parseDigits cs).map (fun n => (n : ℤ))

/-- Python float(): parse a decimal literal, with optional surrounding
whitespace, sign, fraction and exponent, to an exact rational.  Returns none
where float() raises ValueError. -/
def pyFloat (s : String) : Option ℚ :=
  match splitOnPred (fun c => c = 'e' ∨ c = 'E') (trimWs s.toList) with
  | [m] => parseSigned m
  | [m, ex] =>
    match parseSigned m, parseExp ex with
    | some q, some e => some (q * (10 : ℚ) ^ e)
    | _, _ => none
  | _ => none

/-- The busy-wait loop of the completion-polling primitive
(`while x == '': x = self.read()`): `x` is the response already in hand,
`rs` the responses the device will give to subsequent reads.  Returns the
first non-empty response observed, the number of read() calls performed to
get it, and the responses left, or none when the responses run out
(transport timeout). -/
def pollLoop : String → List String → Option (String × ℕ × List String)
  | x, rs =>
    if x = "" then
      match rs with
      | [] => none
      | r :: rest =>
        match pollLoop r rest with
        | none => none
        | some (y, k, rem) => some (y, k + 1, rem)
    else some (x, 0, rs)

/-- The completion-polling measure primitive shared by the counter drivers:
write the trigger command, ask the operation-complete query, busy-wait with
plain reads while the response is empty, then ask the fetch command and
parse its response as a float.  The device is a queue of responses handed
out, in order, to the ask and read operations; on success the parsed value
and the full transport-operation trace are returned, on transport timeout or
unparseable fetch response the failure propagates (none). -/
def Instrument.measure (trig opcQ fetchQ : String) (rs : List String) :
    Option (ℚ × List TOp) :=
  match rs with
  | [] => none
  | r0 :: rs1 =>
    match pollLoop r0 rs1 with
    | none => none
    | some (_, k, rem) =>
      match rem with
      | [] => none
      | rf :: _ =>
        match pyFloat rf with
        | none => none
        | some v =>
          some (v, [TOp.write trig, TOp.ask opcQ] ++
                List.replicate k TOp.read ++ [TOp.ask fetchQ])

/-- FlukePM6666.FUNCTIONS: logical function key to wire token. -/
def FlukePM6666.FUNCTIONS : List (String × String) :=
  [("FREQ", "FREQ"), ("PER", "PER"), ("TINT", "TIME"), ("TOT", "TOTM")]

/-- The fetch command built by FlukePM6666.measure:
the stored function key is interpolated directly into FETC:%s?. -/
def FlukePM6666.fetchCmd (func : String) : String :=
  "FETC:" ++ func ++ "?"

/-- FlukePM6666.measure: write INIT, ask *OPC?, busy-wait on empty
responses, then fetch with the stored function key and parse as float. -/
def FlukePM6666.measure (func : String) (rs : List String) :
    Option (ℚ × List TOp) :=
  Instrument.measure "INIT" "*OPC?" (FlukePM6666.fetchCmd func) rs

/-- Error raised by the validator pipeline, before any transport I/O. -/
inductive PError where
  | ValidationError (msg : String)
deriving DecidableEq, Repr

instance {ε α : Type} [DecidableEq ε] [DecidableEq α] :
    DecidableEq (Except ε α) := fun x y =>
  match x, y with
  | Except.ok a, Except.ok b =>
    if h : a = b then isTrue (by rw [h])
    else isFalse (by intro hh; cases hh; exact h rfl)
  | Except.ok _, Except.error _ => isFalse (by intro hh; cases hh)
  | Except.error _, Except.ok _ => isFalse (by intro hh; cases hh)
  | Except.error a, Except.error b =>
    if h : a = b then isTrue (by rw [h])
    else isFalse (by intro hh; cases hh; exact h rfl)

/-- Forward lookup in a value map: logical key to wire token. -/
def mapForward (m : List (String × String)) (k : String) : Option String :=
  (m.find? (fun p => p.1 == k)).map (fun p => p.2)

/-- Reverse lookup in a value map: wire token back to logical key. -/
def mapReverse (m : List (String × String)) (t : String) : Option String :=
  (m.find? (fun p => p.2 == t)).map (fun p => p.1)

/-- Substitute the first %<marker> placeholder of a Python format template
with the given characters. -/
def substPct (marker : Char) (arg : List Char) : List Char → List Char
  | [] => []
  | '%' :: c :: rest =>
    if c = marker then arg ++ rest else '%' :: c :: substPct marker arg rest
  | c :: rest => c :: substPct marker arg rest

/-- Decimal digits of a natural number (fuel-indexed helper). -/
def natDigitsAux : ℕ → ℕ → List Char
  | 0, _ => []
  | _ + 1, 0 => []
  | fuel + 1, n => natDigitsAux fuel (n / 10) ++ [Char.ofNat (48 + n % 10)]

/-- Decimal digit string of a natural number. -/
def natToChars (n : ℕ) : List Char :=
  if n = 0 then ['0'] else natDigitsAux (n + 1) n

/-- Decimal digit string of an integer, with a leading minus sign when
negative. -/
def intToChars (i : ℤ) : List Char :=
  if i < 0 then '-' :: natToChars i.natAbs else natToChars i.natAbs

/-- Rendering of a rational, modelling Python %g formatting for the decadic
values the drivers write: integers render without decimal point or
exponent; other decadic rationals render with their exact fraction digits
(trailing zeros stripped, as %g strips them); values that are not decadic
do not occur in the drivers and render as num/den. -/
def gRepr (q : ℚ) : List Char :=
  if q.den = 1 then intToChars q.num
  else
    match (List.range 18).find? (fun e => (q * 10 ^ e).den = 1) with
    | some e =>
      let n := (|q| * 10 ^ e).num.natAbs
      let ip := n / 10 ^ e
      let fp := n % 10 ^ e
      let fpcs := natToChars fp
      let fpPadded := List.replicate (e - fpcs.length) '0' ++ fpcs
      let fpTrimmed := (fpPadded.reverse.dropWhile (fun c => c = '0')).reverse
      (if q < 0 then ['-'] else []) ++ natToChars ip ++ '.' :: fpTrimmed
    | none => intToChars q.num ++ '/' :: natToChars q.den

/-- Python "tmpl %s token" string formatting. -/
def formatS (tmpl tok : String) : String :=
  ⟨substPct 's' tok.toList tmpl.toList⟩

/-- Python "tmpl %g value" string formatting. -/
def formatG (tmpl : String) (v : ℚ) : String :=
  ⟨substPct 'g' (gRepr v) tmpl.toList⟩

/-- Python "tmpl %d value" string formatting. -/
def formatD (tmpl : String) (n : ℤ) : String :=
  ⟨substPct 'd' (intToChars n) tmpl.toList⟩

/-- Modelled from the spec: pymeasure.instruments.validators
strict_discrete_set used with a mapping and map_values=True
(the validators module is not under src): the candidate key is
checked for membership and the associated wire token is returned; a
candidate outside the domain fails with ValidationError, and the validator
never touches the transport. -/
def strict_discrete_set (v : String) (values : List (String × String)) :
    Except PError String :=
  match mapForward values v with
  | some tok => Except.ok tok
  | none => Except.error (PError.ValidationError "value not in allowed set")

/-- Modelled from the spec: the numeric-range validator (strict_range, not
under src): the value unchanged when inside the inclusive bounds, else
ValidationError. -/
def strict_range (v lo hi : ℚ) : Except PError ℚ :=
  if lo ≤ v ∧ v ≤ hi then Except.ok v
  else Except.error (PError.ValidationError "value out of range")

/-- Modelled from the spec: the Instrument.control write path of a mapped
discrete-set property (Instrument.control is not under src): run the
candidate through the discrete-set validator, embed the wire token into the
%s set template and perform exactly one transport write; on validation
failure no transport operation is performed.  Returns the writes performed
and the outcome. -/
def controlSetMapped (setTmpl : String) (values : List (String × String))
    (v : String) : List TOp × Except PError Unit :=
  match strict_discrete_set v values with
  | Except.error e => ([], Except.error e)
  | Except.ok tok => ([TOp.write (formatS setTmpl tok)], Except.ok ())

/-- Modelled from the spec: the Instrument.control read path of a mapped
property (not under src): ask the get command and recover the logical key
from the device response through the reverse mapping. -/
def controlGetMapped (getCmd : String) (values : List (String × String))
    (resp : String) : List TOp × Option String :=
  ([TOp.ask getCmd], mapReverse values resp)

/-- Modelled from the spec: the Instrument.control write path of a numeric
property (not under src): run the candidate through the validator when one
is configured, format the result into the %g set template and perform one
transport write; with no validator configured every value is formatted and
written unchecked. -/
def controlSetNum (setTmpl : String) (validator : Option (ℚ → Except PError ℚ))
    (v : ℚ) : List TOp × Except PError Unit :=
  match validator with
  | none => ([TOp.write (formatG setTmpl v)], Except.ok ())
  | some val =>
    match val v with
    | Except.error e => ([], Except.error e)
    | Except.ok w => ([TOp.write (formatG setTmpl w)], Except.ok ())

/-- Modelled from the spec: the Instrument.control read path of a numeric
property (not under src): ask the get command and parse the response as a
float. -/
def controlGetNum (getCmd : String) (resp : String) : List TOp × Option ℚ :=
  ([TOp.ask getCmd], pyFloat resp)

/-- Agilent53132A.AMPLITUDE_UNITS value map, from the source. -/
def Agilent53132A.AMPLITUDE_UNITS : List (String × String) :=
  [("Vpp", "VPP"), ("Vrms", "VRMS"), ("dBm", "DBM"), ("default", "DEF")]

/-- Write path of Agilent53132A.amplitude_units: control with set template
SOUR:VOLT:UNIT %s, strict_discrete_set, values=AMPLITUDE_UNITS,
map_values=True. -/
def Agilent53132A.amplitudeUnitsSet (v : String) :
    List TOp × Except PError Unit :=
  controlSetMapped "SOUR:VOLT:UNIT %s" Agilent53132A.AMPLITUDE_UNITS v

/-- Read path of Agilent53132A.amplitude_units: ask SOUR:VOLT:UNIT? and
reverse-map the response. -/
def Agilent53132A.amplitudeUnitsGet (resp : String) :
    List TOp × Option String :=
  controlGetMapped "SOUR:VOLT:UNIT?" Agilent53132A.AMPLITUDE_UNITS resp

/-- Write path of Agilent53132A.amplitude: the source declares it as
Instrument.control("SOUR:VOLT?", "SOUR:VOLT %g", doc) with no validator and
no values. -/
def Agilent53132A.amplitudeSet (v : ℚ) : List TOp × Except PError Unit :=
  controlSetNum "SOUR:VOLT %g" none v

/-- Read path of Agilent53132A.amplitude: ask SOUR:VOLT? and parse the
response as a float. -/
def Agilent53132A.amplitudeGet (resp : String) : List TOp × Option ℚ :=
  controlGetNum "SOUR:VOLT?" resp

/-- Python str.split() with no arguments: split on whitespace runs and drop
empty pieces. -/
def splitWs (s : String) : List String :=
  ((splitOnPred Char.isWhitespace s.toList).filter (fun w => w ≠ [])).map
    (fun w => String.mk w)

/-- SunEC1.mode from the source: the loop head reads
`for i in split(m):` — `split` is a bare name that is neither a Python
builtin nor imported or defined anywhere in the module, so evaluating the
loop iterator raises NameError on every call, before any loop iteration,
before the HON/CON writes of the loop body and before the trailing
`RATE=%d` write.  Faithfully, every call therefore performs zero transport
writes and raises; the pair returned is the writes performed and the
outcome. -/
def SunEC1.mode (m : String) (rate : ℤ) : List TOp × Except String Unit :=
  ([], Except.error "NameError: name split is not defined")

/-- One step of the sweep loop in IVProcedure.execute: the resistance
emitted for a (current, voltage) sample — numpy nan when the magnitude of
the current is at most 1e-10 A, modelled as none since not-a-number is no
rational, else voltage divided by current. -/
def IVProcedure.resistance (current voltage : ℚ) : Option ℚ :=
  if |current| ≤ 1 / 10 ^ 10 then none else some (voltage / current)

/-- Instrument-side state of the FlukePM6666 driver: the stored logical
function key and the log of transport writes performed so far. -/
structure FlukeState where
  func : String
  trace : List TOp
deriving DecidableEq, Repr

/-- FlukePM6666.reset from the source: device clear, EOI ON, and the stored
function key becomes FREQ. -/
def FlukePM6666.reset (s : FlukeState) : FlukeState :=
  { func := "FREQ", trace := s.trace ++ [TOp.write "D", TOp.write "EOI ON"] }

/-- FlukePM6666.function from the source: split the command; when the first
whitespace token is a FUNCTIONS key, store it and write FUNC with the full
command quoted; when it is not a key, return silently with no write and no
state change; on a command with no tokens the f[0] subscript raises
(IndexError), modelled as an error value, before any state change. -/
def FlukePM6666.function (cmd : String) (s : FlukeState) :
    Except String FlukeState :=
  match splitWs cmd with
  | [] => Except.error "IndexError"
  | t :: _ =>
    if (mapForward FlukePM6666.FUNCTIONS t).isSome then
      Except.ok { func := t,
                  trace := s.trace ++ [TOp.write ("FUNC \x27" ++ cmd ++ "\x27")] }
    else Except.ok s

/-- A caller-visible call on the Fluke driver. -/
inductive FlukeCall where
  | reset
  | function (cmd : String)

/-- Run a sequence of calls on the driver; a call that raises leaves the
instrument state as it was. -/
def FlukePM6666.run (calls : List FlukeCall) (s : FlukeState) : FlukeState :=
  match calls with
  | [] => s
  | FlukeCall.reset :: rest => FlukePM6666.run rest (FlukePM6666.reset s)
  | FlukeCall.function cmd :: rest =>
    match FlukePM6666.function cmd s with
    | Except.ok s2 => FlukePM6666.run rest s2
    | Except.error _ => FlukePM6666.run rest s

/-- The state established by FlukePM6666.__init__, which ends by calling
reset(). -/
def FlukePM6666.initState : FlukeState := FlukePM6666.reset ⟨"", []⟩

/-- The logical function keys of the FUNCTIONS table. -/
def FlukePM6666.funcKeys : List String :=
  FlukePM6666.FUNCTIONS.map (fun p => p.1)

/-! ## Helper lemmas -/

theorem pollLoop_of_ne (x : String) (rs : List String) (hx : x ≠ "") :
    pollLoop x rs = some (x, 0, rs) := by
  unfold pollLoop
  simp [hx]

theorem pollLoop_some (rs : List String) :
    ∀ (x y : String) (k : ℕ) (rem : List String),
      pollLoop x rs = some (y, k, rem) →
      y ≠ "" ∧ x :: rs = List.replicate k "" ++ y :: rem := by
  induction rs with
  | nil =>
    intro x y k rem h
    unfold pollLoop at h
    by_cases hx : x = ""
    · simp [hx] at h
    · simp only [if_neg hx] at h
      obtain ⟨h1, h2, h3⟩ := by simpa using h
      subst h1; subst h2; subst h3
      simp [hx]
  | cons r rest ih =>
    intro x y k rem h
    unfold pollLoop at h
    by_cases hx : x = ""
    · subst hx
      simp only [if_pos rfl] at h
      cases hp : pollLoop r rest with
      | none => rw [hp] at h; simp at h
      | some t =>
        obtain ⟨y2, k2, rem2⟩ := t
        rw [hp] at h
        obtain ⟨h1, h2, h3⟩ := by simpa using h
        obtain ⟨hy, hdec⟩ := ih r y2 k2 rem2 hp
        refine ⟨h1 ▸ hy, ?_⟩
        rw [← h2, ← h1, ← h3, List.replicate_succ, List.cons_append, ← hdec]
    · simp only [if_neg hx] at h
      obtain ⟨h1, h2, h3⟩ := by simpa using h
      subst h1; subst h2; subst h3
      simp [hx]

theorem pollLoop_complete :
    ∀ (k : ℕ) (x y : String) (rs rem : List String), y ≠ "" →
      x :: rs = List.replicate k "" ++ y :: rem →
      pollLoop x rs = some (y, k, rem) := by
  intro k
  induction k with
  | zero =>
    intro x y rs rem hy he
    simp only [List.replicate_zero, List.nil_append, List.cons.injEq] at he
    obtain ⟨hx, hrs⟩ := he
    subst hx; subst hrs
    exact pollLoop_of_ne x rs hy
  | succ k ih =>
    intro x y rs rem hy he
    rw [List.replicate_succ, List.cons_append] at he
    simp only [List.cons.injEq] at he
    obtain ⟨hx, hrs⟩ := he
    subst hx
    cases rs with
    | nil => simp at hrs
    | cons r rest =>
      have hrec := ih r y rest rem hy hrs
      unfold pollLoop
      simp [hrec]

theorem pollLoop_allEmpty (n : ℕ) :
    pollLoop "" (List.replicate n "") = none := by
  induction n with
  | zero => unfold pollLoop; simp
  | succ m ih =>
    rw [List.replicate_succ]
    unfold pollLoop
    simp [ih]

theorem measure_some (trig opcQ fetchQ : String) (rs : List String) (v : ℚ)
    (tr : List TOp)
    (h : Instrument.measure trig opcQ fetchQ rs = some (v, tr)) :
    ∃ (k : ℕ) (y rf : String) (rest : List String),
      rs = List.replicate k "" ++ y :: rf :: rest ∧ y ≠ "" ∧
      pyFloat rf = some v ∧
      tr = [TOp.write trig, TOp.ask opcQ] ++ List.replicate k TOp.read ++
        [TOp.ask fetchQ] := by
  cases rs with
  | nil => simp [Instrument.measure] at h
  | cons r0 rs1 =>
    simp only [Instrument.measure] at h
    cases hp : pollLoop r0 rs1 with
    | none => rw [hp] at h; simp at h
    | some t =>
      obtain ⟨y, k, rem⟩ := t
      rw [hp] at h
      cases rem with
      | nil => simp at h
      | cons rf rest =>
        cases hf : pyFloat rf with
        | none => simp [hf] at h
        | some w =>
          simp only [hf, Option.some.injEq, Prod.mk.injEq] at h
          obtain ⟨hv, htr⟩ := h
          obtain ⟨hy, hdec⟩ := pollLoop_some rs1 r0 y k (rf :: rest) hp
          exact ⟨k, y, rf, rest, hdec, hy, by rw [hf, hv], htr.symm⟩

theorem measure_complete (trig opcQ fetchQ : String) (k : ℕ) (y rf : String)
    (rest : List String) (v : ℚ) (hy : y ≠ "") (hf : pyFloat rf = some v) :
    Instrument.measure trig opcQ fetchQ
        (List.replicate k "" ++ y :: rf :: rest) =
      some (v, [TOp.write trig, TOp.ask opcQ] ++ List.replicate k TOp.read ++
        [TOp.ask fetchQ]) := by
  have hnil : List.replicate k "" ++ y :: rf :: rest ≠ [] := by
    exact List.append_ne_nil_of_right_ne_nil _ (by simp)
  cases hc : List.replicate k "" ++ y :: rf :: rest with
  | nil => exact absurd hc hnil
  | cons r0 rs1 =>
    unfold Instrument.measure
    have hp : pollLoop r0 rs1 = some (y, k, rf :: rest) :=
      pollLoop_complete k r0 y rs1 (rf :: rest) hy (by rw [← hc])
    simp [hp, hf]

theorem mapForward_mem (m : List (String × String)) (k : String)
    (h : (mapForward m k).isSome) : k ∈ m.map Prod.fst := by
  unfold mapForward at h
  cases hf : m.find? (fun p => p.1 == k) with
  | none => rw [hf] at h; simp at h
  | some pr =>
    have hmem := List.mem_of_find?_eq_some hf
    have hk := List.find?_some hf
    simp only [beq_iff_eq] at hk
    exact hk ▸ List.mem_map_of_mem Prod.fst hmem

theorem mapForward_eq_none (m : List (String × String)) (v : String)
    (h : v ∉ m.map Prod.fst) : mapForward m v = none := by
  unfold mapForward
  rw [List.find?_eq_none.mpr]
  · rfl
  · intro p hp
    simp only [beq_iff_eq]
    intro hpv
    exact h (hpv ▸ List.mem_map_of_mem Prod.fst hp)

theorem function_ok_cases (cmd : String) (s s2 : FlukeState)
    (h : FlukePM6666.function cmd s = Except.ok s2) :
    s2 = s ∨ s2.func ∈ FlukePM6666.funcKeys := by
  unfold FlukePM6666.function at h
  cases hsp : splitWs cmd with
  | nil => rw [hsp] at h; simp at h
  | cons t rest =>
    rw [hsp] at h
    by_cases ht : (mapForward FlukePM6666.FUNCTIONS t).isSome
    · right
      simp only [if_pos ht, Except.ok.injEq] at h
      rw [← h]
      exact mapForward_mem FlukePM6666.FUNCTIONS t ht
    · left
      simp only [if_neg ht, Except.ok.injEq] at h
      exact h.symm

theorem run_func_mem (calls : List FlukeCall) :
    ∀ s : FlukeState, s.func ∈ FlukePM6666.funcKeys →
      (FlukePM6666.run calls s).func ∈ FlukePM6666.funcKeys := by
  induction calls with
  | nil =>
    intro s hs
    simpa [FlukePM6666.run] using hs
  | cons c rest ih =>
    intro s hs
    cases c with
    | reset =>
      simp only [FlukePM6666.run]
      exact ih _ (by simp [FlukePM6666.reset, FlukePM6666.funcKeys,
        FlukePM6666.FUNCTIONS])
    | function cmd =>
      simp only [FlukePM6666.run]
      cases hf : FlukePM6666.function cmd s with
      | error e =>
        exact ih _ hs
      | ok s2 =>
        rcases function_ok_cases cmd s s2 hf with h | h
        · exact ih _ (by rw [h]; exact hs)
        · exact ih _ h

/-! ## Claims -/

/-- C1: on every device-response sequence on which it completes, the
completion-polling measure() primitive first writes the trigger command,
then issues the operation-complete query via ask, and finally issues the
fetch command via ask, parses the fetch response as a floating-point number
and returns exactly that parsed value. -/
theorem claim_C1_measure_protocol (func : String) (rs : List String) (v : ℚ)
    (tr : List TOp) (h : FlukePM6666.measure func rs = some (v, tr)) :
    ∃ (k : ℕ) (y rf : String) (rest : List String),
      rs = List.replicate k "" ++ y :: rf :: rest ∧ y ≠ "" ∧
      tr = [TOp.write "INIT", TOp.ask "*OPC?"] ++ List.replicate k TOp.read ++
        [TOp.ask (FlukePM6666.fetchCmd func)] ∧
      pyFloat rf = some v := by
  obtain ⟨k, y, rf, rest, h1, h2, h3, h4⟩ :=
    measure_some "INIT" "*OPC?" (FlukePM6666.fetchCmd func) rs v tr h
  exact ⟨k, y, rf, rest, h1, h2, h4, h3⟩

/-- Witness for C1 on the concrete device answering 1 to the
operation-complete query and 5 to the fetch. -/
theorem claim_C1_witness :
    ∃ (k : ℕ) (y rf : String) (rest : List String),
      (["1", "5"] : List String) = List.replicate k "" ++ y :: rf :: rest ∧
      y ≠ "" ∧
      ([TOp.write "INIT", TOp.ask "*OPC?", TOp.ask "FETC:FREQ?"] : List TOp) =
        [TOp.write "INIT", TOp.ask "*OPC?"] ++ List.replicate k TOp.read ++
        [TOp.ask (FlukePM6666.fetchCmd "FREQ")] ∧
      pyFloat rf = some 5 :=
  claim_C1_measure_protocol "FREQ" ["1", "5"] 5
    [TOp.write "INIT", TOp.ask "*OPC?", TOp.ask "FETC:FREQ?"] (by decide)

/-- C2: when the operation-complete query returned the empty string, the
busy-wait loop performs only plain read() calls (every non-read operation
of a completed measure() is the trigger write or one of the two asks),
exits exactly at the first read that returns a non-empty response, and has
no upper bound of its own: on a transport whose every read returns the
empty string it never exits, however many reads are available. -/
theorem claim_C2_busy_wait :
    (∀ (rs rem : List String) (y : String) (k : ℕ),
        pollLoop "" rs = some (y, k, rem) →
        1 ≤ k ∧ y ≠ "" ∧ "" :: rs = List.replicate k "" ++ y :: rem) ∧
    (∀ n : ℕ, pollLoop "" (List.replicate n "") = none) ∧
    (∀ (func : String) (rs : List String) (v : ℚ) (tr : List TOp),
        FlukePM6666.measure func rs = some (v, tr) →
        ∀ op ∈ tr, op ≠ TOp.read →
          op = TOp.write "INIT" ∨ op = TOp.ask "*OPC?" ∨
          op = TOp.ask (FlukePM6666.fetchCmd func)) := by
  refine ⟨?_, pollLoop_allEmpty, ?_⟩
  · intro rs rem y k h
    obtain ⟨hy, hdec⟩ := pollLoop_some rs "" y k rem h
    refine ⟨?_, hy, hdec⟩
    rcases k with _ | k
    · simp only [List.replicate_zero, List.nil_append, List.cons.injEq] at hdec
      exact absurd hdec.1.symm hy
    · omega
  · intro func rs v tr h op hmem hne
    obtain ⟨k, y, rf, rest, h1, h2, h3, h4⟩ :=
      measure_some "INIT" "*OPC?" (FlukePM6666.fetchCmd func) rs v tr h
    rw [h4] at hmem
    simp only [List.append_assoc, List.mem_append, List.mem_cons,
      List.mem_replicate, List.mem_singleton, List.not_mem_nil,
      or_false] at hmem
    rcases hmem with (h | h) | (⟨_, h⟩ | h)
    · exact Or.inl h
    · exact Or.inr (Or.inl h)
    · exact absurd h hne
    · exact Or.inr (Or.inr h)

/-- Witness for C2 on the concrete response queue with two empty responses
then the sentinel 1: the loop exits after read number 2, the first read
that returned a non-empty response. -/
theorem claim_C2_witness :
    1 ≤ 2 ∧ ("1" : String) ≠ "" ∧
    ("" :: ["", "1", "x"] : List String) =
      List.replicate 2 "" ++ "1" :: ["x"] :=
  claim_C2_busy_wait.1 ["", "1", "x"] ["x"] "1" 2 (by decide)

/-- C3 is false as stated: against the device that immediately answers the
operation-complete query with 1 (n = 0) and the fetch with 5, measure()
performs 3 transport operations — the trigger write, the opc ask and the
fetch ask all occur before the fetched value is returned — not n+2 = 2. -/
theorem claim_C3_counterexample :
    FlukePM6666.measure "FREQ" ["1", "5"] =
      some (5, [TOp.write "INIT", TOp.ask "*OPC?", TOp.ask "FETC:FREQ?"]) ∧
    ¬ ([TOp.write "INIT", TOp.ask "*OPC?",
        TOp.ask "FETC:FREQ?"].length = 0 + 2) :=
  ⟨by decide, by decide⟩

/-- C3 amended: for every n, measure() against a device whose first n
responses are empty and which from then on answers a valid float token
returns that parsed float and performs exactly n+3 transport operations
(trigger write, opc ask, n reads, final fetch ask), of which exactly n+2
occur before the final fetch. -/
theorem claim_C3_amended (n : ℕ) (tok : String) (v : ℚ) (hy : tok ≠ "")
    (hf : pyFloat tok = some v) :
    FlukePM6666.measure "FREQ" (List.replicate n "" ++ [tok, tok]) =
      some (v, [TOp.write "INIT", TOp.ask "*OPC?"] ++
        List.replicate n TOp.read ++ [TOp.ask "FETC:FREQ?"]) ∧
    ([TOp.write "INIT", TOp.ask "*OPC?"] ++ List.replicate n TOp.read ++
      [TOp.ask "FETC:FREQ?"]).length = n + 3 ∧
    ([TOp.write "INIT", TOp.ask "*OPC?"] ++
      List.replicate n TOp.read).length = n + 2 := by
  refine ⟨?_, by simp, by simp⟩
  have hcmd : FlukePM6666.fetchCmd "FREQ" = "FETC:FREQ?" := by decide
  have h := measure_complete "INIT" "*OPC?" (FlukePM6666.fetchCmd "FREQ") n
    tok tok [] v hy hf
  rw [hcmd] at h
  simpa [FlukePM6666.measure, FlukePM6666.fetchCmd, hcmd] using h

/-- Witness for C3 amended with n = 1 and the float token 5. -/
theorem claim_C3_witness :
    FlukePM6666.measure "FREQ" (List.replicate 1 "" ++ ["5", "5"]) =
      some (5, [TOp.write "INIT", TOp.ask "*OPC?"] ++
        List.replicate 1 TOp.read ++ [TOp.ask "FETC:FREQ?"]) ∧
    ([TOp.write "INIT", TOp.ask "*OPC?"] ++ List.replicate 1 TOp.read ++
      [TOp.ask "FETC:FREQ?"]).length = 1 + 3 ∧
    ([TOp.write "INIT", TOp.ask "*OPC?"] ++
      List.replicate 1 TOp.read).length = 1 + 2 :=
  claim_C3_amended 1 "5" 5 (by decide) (by decide)

/-- C4: for the map-valued discrete-set property amplitude_units over the
domain Vpp, Vrms, dBm, default: writing any key of the domain embeds the
associated wire token into SOUR:VOLT:UNIT %s and performs exactly one
transport write, reading back the wire token recovers the logical key via
the reverse mapping, and writing any value outside the domain fails with
ValidationError and performs zero transport writes. -/
theorem claim_C4_amplitude_units :
    (∀ p ∈ Agilent53132A.AMPLITUDE_UNITS,
      Agilent53132A.amplitudeUnitsSet p.1 =
        ([TOp.write (formatS "SOUR:VOLT:UNIT %s" p.2)], Except.ok ()) ∧
      (Agilent53132A.amplitudeUnitsSet p.1).1.length = 1 ∧
      (Agilent53132A.amplitudeUnitsGet p.2).2 = some p.1) ∧
    (∀ v, v ∉ Agilent53132A.AMPLITUDE_UNITS.map Prod.fst →
      Agilent53132A.amplitudeUnitsSet v =
        ([], Except.error
          (PError.ValidationError "value not in allowed set"))) := by
  constructor
  · decide
  · intro v hv
    have h := mapForward_eq_none Agilent53132A.AMPLITUDE_UNITS v hv
    simp [Agilent53132A.amplitudeUnitsSet, controlSetMapped,
      strict_discrete_set, h]

/-- Witness for C4 at the key Vpp with wire token VPP, and at the
out-of-domain value Hz. -/
theorem claim_C4_witness :
    (Agilent53132A.amplitudeUnitsSet "Vpp" =
        ([TOp.write (formatS "SOUR:VOLT:UNIT %s" "VPP")], Except.ok ()) ∧
      (Agilent53132A.amplitudeUnitsSet "Vpp").1.length = 1 ∧
      (Agilent53132A.amplitudeUnitsGet "VPP").2 = some "Vpp") ∧
    Agilent53132A.amplitudeUnitsSet "Hz" =
      ([], Except.error
        (PError.ValidationError "value not in allowed set")) :=
  ⟨claim_C4_amplitude_units.1 ("Vpp", "VPP") (by decide),
   claim_C4_amplitude_units.2 "Hz" (by decide)⟩

/-- C5 is false as stated: the source declares amplitude with no validator
and no values, so writing 12 raises no ValidationError and performs one
transport write, SOUR:VOLT 12. -/
theorem claim_C5_counterexample :
    Agilent53132A.amplitudeSet 12 =
      ([TOp.write "SOUR:VOLT 12"], Except.ok ()) ∧
    ¬ ((Agilent53132A.amplitudeSet 12).1.length = 0) :=
  ⟨by decide, by decide⟩

/-- C5 amended: amplitude carries no range validator in the source, so
writing 12 issues the single transport write SOUR:VOLT 12 without error;
writing 5 issues exactly SOUR:VOLT 5; and a read issuing SOUR:VOLT? on a
transport answering 5.000 returns the float 5.0. -/
theorem claim_C5_amended :
    Agilent53132A.amplitudeSet 12 =
      ([TOp.write "SOUR:VOLT 12"], Except.ok ()) ∧
    Agilent53132A.amplitudeSet 5 =
      ([TOp.write "SOUR:VOLT 5"], Except.ok ()) ∧
    Agilent53132A.amplitudeGet "5.000" = ([TOp.ask "SOUR:VOLT?"], some 5) := by
  refine ⟨by decide, by decide, ?_⟩
  simp +decide [Agilent53132A.amplitudeGet, controlGetNum, pyFloat,
    parseSigned, parseMantissa, parseDigits, splitOnPred, trimWs]

/-- C6: the code diverges from the claim at the failing inputs: every call
to SunEC1.mode raises NameError from the undefined bare name split before
any transport write, so writing HEAT performs zero writes (no HON) and
writing BOTH raises NameError, not ValidationError, also with zero
transport writes. -/
theorem claim_C6_code_divergence :
    SunEC1.mode "HEAT" 20 =
      ([], Except.error "NameError: name split is not defined") ∧
    SunEC1.mode "BOTH" 20 =
      ([], Except.error "NameError: name split is not defined") ∧
    (SunEC1.mode "HEAT" 20).1.length = 0 ∧
    (SunEC1.mode "BOTH" 20).1.length = 0 :=
  ⟨rfl, rfl, rfl, rfl⟩

/-- C7: the AMPLITUDE_UNITS value map is a bijection over its declared
domain: the forward key-to-token mapping composed with the reverse
token-to-key mapping is the identity on every key of the domain. -/
theorem claim_C7_bijection :
    ∀ k ∈ Agilent53132A.AMPLITUDE_UNITS.map Prod.fst,
      (mapForward Agilent53132A.AMPLITUDE_UNITS k).bind
        (mapReverse Agilent53132A.AMPLITUDE_UNITS) = some k := by decide

/-- Witness for C7 at the key Vpp. -/
theorem claim_C7_witness :
    (mapForward Agilent53132A.AMPLITUDE_UNITS "Vpp").bind
      (mapReverse Agilent53132A.AMPLITUDE_UNITS) = some "Vpp" :=
  claim_C7_bijection "Vpp" (by decide)

/-- The 1e-10 threshold of the IV procedure is below the magnitude of the
unit current. -/
theorem threshold_lt_abs_one : (1 : ℚ) / 10 ^ 10 < |(1 : ℚ)| := by
  rw [abs_one]
  norm_num

/-- C8: in the IV procedure execute loop, the emitted resistance is
not-a-number (modelled none) when the magnitude of the current is at most
1e-10 A, and equals voltage divided by current otherwise, so the division
is never performed with a current of magnitude at most 1e-10; the policy
lives in the calling procedure, not the property pipeline. -/
theorem claim_C8_resistance_policy (current voltage : ℚ) :
    (|current| ≤ 1 / 10 ^ 10 →
      IVProcedure.resistance current voltage = none) ∧
    (1 / 10 ^ 10 < |current| →
      IVProcedure.resistance current voltage = some (voltage / current)) ∧
    (∀ r, IVProcedure.resistance current voltage = some r →
      1 / 10 ^ 10 < |current| ∧ r = voltage / current) := by
  unfold IVProcedure.resistance
  refine ⟨fun h => by rw [if_pos h],
    fun h => by rw [if_neg (not_le.mpr h)], ?_⟩
  intro r hr
  by_cases hc : |current| ≤ 1 / 10 ^ 10
  · rw [if_pos hc] at hr
    exact absurd hr (by simp)
  · rw [if_neg hc] at hr
    exact ⟨not_le.mp hc, (Option.some_injective ℚ hr).symm⟩

/-- Witness for C8 at current 1 A, voltage 2 V. -/
theorem claim_C8_witness : IVProcedure.resistance 1 2 = some (2 / 1) :=
  (claim_C8_resistance_policy 1 2).2.1 threshold_lt_abs_one

theorem mapForward_isSome (m : List (String × String)) (k : String)
    (h : k ∈ m.map Prod.fst) : (mapForward m k).isSome := by
  unfold mapForward
  rw [Option.isSome_map']
  rw [List.find?_isSome]
  obtain ⟨p, hp, hk⟩ := List.mem_map.mp h
  exact ⟨p, hp, by simp [hk]⟩

/-- C9: the stored func of the Fluke driver is always a FUNCTIONS key after
any sequence of reset and function calls starting from the constructed
state; reset stores FREQ; function stores the first whitespace token of the
command and issues one transport write exactly when that token is a key,
and when the token is not a key it returns without raising, performs no
transport write and leaves func unchanged. -/
theorem claim_C9_func_invariant :
    (∀ calls : List FlukeCall,
      (FlukePM6666.run calls FlukePM6666.initState).func ∈
        FlukePM6666.funcKeys) ∧
    (∀ s : FlukeState, (FlukePM6666.reset s).func = "FREQ") ∧
    (∀ (cmd t : String) (ts : List String) (s : FlukeState),
      splitWs cmd = t :: ts →
      (t ∈ FlukePM6666.funcKeys →
        FlukePM6666.function cmd s = Except.ok
          ⟨t, s.trace ++ [TOp.write ("FUNC \x27" ++ cmd ++ "\x27")]⟩) ∧
      (t ∉ FlukePM6666.funcKeys →
        FlukePM6666.function cmd s = Except.ok s)) := by
  refine ⟨?_, fun s => rfl, ?_⟩
  · intro calls
    exact run_func_mem calls FlukePM6666.initState (by decide)
  · intro cmd t ts s hsp
    constructor
    · intro ht
      have hks : (mapForward FlukePM6666.FUNCTIONS t).isSome :=
        mapForward_isSome FlukePM6666.FUNCTIONS t ht
      unfold FlukePM6666.function
      rw [hsp]
      simp [hks]
    · intro ht
      have hks : ¬ (mapForward FlukePM6666.FUNCTIONS t).isSome := by
        intro hs
        exact ht (mapForward_mem FlukePM6666.FUNCTIONS t hs)
      unfold FlukePM6666.function
      rw [hsp]
      simp [hks]

/-- Witness for C9 at the command TINT on the constructed state. -/
theorem claim_C9_witness :
    ("TINT" ∈ FlukePM6666.funcKeys →
      FlukePM6666.function "TINT" FlukePM6666.initState = Except.ok
        ⟨"TINT", FlukePM6666.initState.trace ++
          [TOp.write ("FUNC \x27" ++ "TINT" ++ "\x27")]⟩) ∧
    ("TINT" ∉ FlukePM6666.funcKeys →
      FlukePM6666.function "TINT" FlukePM6666.initState =
        Except.ok FlukePM6666.initState) :=
  claim_C9_func_invariant.2.2 "TINT" "TINT" [] FlukePM6666.initState
    (by decide)

theorem trace_ops (k : ℕ) (trig opcQ fetchQ : String) (op : TOp)
    (hmem : op ∈ [TOp.write trig, TOp.ask opcQ] ++
      List.replicate k TOp.read ++ [TOp.ask fetchQ]) :
    op = TOp.write trig ∨ op = TOp.ask opcQ ∨ op = TOp.read ∨
      op = TOp.ask fetchQ := by
  simp only [List.mem_append, List.mem_cons, List.not_mem_nil, or_false,
    List.mem_replicate, List.mem_singleton] at hmem
  tauto

theorem fetchCmd_ne_token :
    ∀ p ∈ FlukePM6666.FUNCTIONS, p.1 ≠ p.2 →
      FlukePM6666.fetchCmd p.1 ≠ "FETC:" ++ p.2 ++ "?" ∧
      "FETC:" ++ p.2 ++ "?" ≠ "INIT" ∧
      "FETC:" ++ p.2 ++ "?" ≠ "*OPC?" := by decide

/-- C10: FlukePM6666.measure embeds the stored logical key itself into
FETC:%s?, not the wire token the FUNCTIONS map associates with it; for the
keys whose wire token differs from the key (TINT with TIME, TOT with TOTM),
the fetch command the token would give is never used by any transport
operation of a completed measure(). -/
theorem claim_C10_fetch_uses_key :
    (∀ func ∈ FlukePM6666.funcKeys,
      FlukePM6666.fetchCmd func = "FETC:" ++ func ++ "?") ∧
    (∀ p ∈ FlukePM6666.FUNCTIONS, p.1 ≠ p.2 →
      FlukePM6666.fetchCmd p.1 ≠ "FETC:" ++ p.2 ++ "?") ∧
    (∀ p ∈ FlukePM6666.FUNCTIONS, p.1 ≠ p.2 →
      ∀ (rs : List String) (v : ℚ) (tr : List TOp),
        FlukePM6666.measure p.1 rs = some (v, tr) →
        TOp.ask ("FETC:" ++ p.2 ++ "?") ∉ tr ∧
        TOp.write ("FETC:" ++ p.2 ++ "?") ∉ tr) := by
  refine ⟨by decide, by decide, ?_⟩
  intro p hp hne rs v tr h
  obtain ⟨hc1, hc2, hc3⟩ := fetchCmd_ne_token p hp hne
  obtain ⟨k, y, rf, rest, h1, h2, h3, h4⟩ :=
    measure_some "INIT" "*OPC?" (FlukePM6666.fetchCmd p.1) rs v tr h
  subst h4
  constructor
  · intro hmem
    rcases trace_ops k "INIT" "*OPC?" (FlukePM6666.fetchCmd p.1) _ hmem with
      hq | hq | hq | hq
    · exact TOp.noConfusion hq
    · injection hq with hh
      exact hc3 hh
    · exact TOp.noConfusion hq
    · injection hq with hh
      exact hc1 hh.symm
  · intro hmem
    rcases trace_ops k "INIT" "*OPC?" (FlukePM6666.fetchCmd p.1) _ hmem with
      hq | hq | hq | hq
    · injection hq with hh
      exact hc2 hh
    · exact TOp.noConfusion hq
    · exact TOp.noConfusion hq
    · exact TOp.noConfusion hq

/-- Witness for C10 at the TINT/TIME pair on a completed measure(). -/
theorem claim_C10_witness :
    TOp.ask ("FETC:" ++ "TIME" ++ "?") ∉
      ([TOp.write "INIT", TOp.ask "*OPC?", TOp.ask "FETC:TINT?"] : List TOp) ∧
    TOp.write ("FETC:" ++ "TIME" ++ "?") ∉
      ([TOp.write "INIT", TOp.ask "*OPC?", TOp.ask "FETC:TINT?"] : List TOp) :=
  claim_C10_fetch_uses_key.2.2 ("TINT", "TIME") (by decide) (by decide)
    ["1", "5"] 5 [TOp.write "INIT", TOp.ask "*OPC?", TOp.ask "FETC:TINT?"]
    (by decide)
